import Mathlib

/-!
Verification of the THD process-group collective facade
(src/torch/lib/THD/process_group/Collectives.cpp) and of the collective
engine it delegates to.

The file has two layers:

1. The facade layer, translated from `Collectives.cpp`: the seven public
   entry points (`THDGetRank`, `THDGetNumProcesses`, `THDAllReduce`,
   `THDReduce`, `THDBroadcast`, `THDSend`, `THDReceive`).  Each entry
   point dereferences the global `dataChannel` pointer (here an
   `Option DataChannel`, where `none` models the null pointer present
   before the group has been joined) and, for the five collectives, also
   the descriptor pointer, with no check of its own; the dereference of a
   null pointer is modelled by the `CallOutcome.nullDeref` outcome.

2. The engine layer (`DataChannel` methods, the message codec, and the
   group-level buffer semantics).  The engine's code is not part of this
   repository fragment, so these definitions are modelled from the spec,
   as their doc comments state.
-/

namespace THD

/-- Modelled from the spec: the error taxonomy of section 7
(NotInitialized, InvalidRank, SizeMismatch, MalformedFrame,
ConnectionLost). -/
inductive THDError where
  | notInitialized
  | invalidRank
  | sizeMismatch
  | malformedFrame
  | connectionLost
deriving DecidableEq, Repr

/-- The observable outcome of calling one of the public entry points:
a returned value, a typed failure surfaced to the caller, or the
undefined-behavior branch reached by dereferencing a null pointer. -/
inductive CallOutcome (α : Type) where
  | ok (a : α)
  | typedError (e : THDError)
  | nullDeref
deriving DecidableEq, Repr

/-- Modelled from the spec: a tensor descriptor is an element-type tag,
an element count, and (a reference to) the raw payload bytes. -/
structure TensorDescriptor where
  elementType : Nat
  elementCount : Nat
  payload : List Nat
deriving DecidableEq, Repr

/-- Modelled from the spec: the tagged element-type table giving each
recognized type tag its element size in bytes; an unrecognized tag has
no size. -/
def elemSize (tag : Nat) : Option Nat :=
  match tag with
  | 0 => some 1
  | 1 => some 4
  | 2 => some 8
  | 3 => some 4
  | 4 => some 8
  | _ => none

/-- Little-endian encoding of a natural number into `k` bytes. -/
def bytesOfNat : Nat → Nat → List Nat
  | 0, _ => []
  | k + 1, n => n % 256 :: bytesOfNat k (n / 256)

/-- Little-endian decoding of a byte list back into a natural number. -/
def natOfBytes : List Nat → Nat
  | [] => 0
  | b :: bs => b + 256 * natOfBytes bs

/-- Modelled from the spec: an in-memory wire frame — opcode, sender
rank, element type tag, element count, raw payload bytes. -/
structure Frame where
  opcode : Nat
  senderRank : Nat
  elementType : Nat
  elementCount : Nat
  payload : List Nat
deriving DecidableEq, Repr

/-- Modelled from the spec: the codec's `encode` — serialize a frame as
the fixed header `[opcode: 1 byte][senderRank: 4 bytes][elementType: 1
byte][elementCount: 8 bytes]` followed by the payload bytes, all
integers little-endian. -/
def encode (f : Frame) : List Nat :=
  f.opcode % 256 :: (bytesOfNat 4 f.senderRank ++
    (f.elementType % 256 :: (bytesOfNat 8 f.elementCount ++ f.payload)))

/-- Modelled from the spec: the codec's `decode` — read the fixed-size
header, then take the rest as payload; fails with `MalformedFrame` if
the byte list is shorter than a header, if the element-type tag is
unrecognized, or if the declared payload length (element count times
element size) does not match the actual bytes received. -/
def decode (bs : List Nat) : Except THDError Frame :=
  match bs with
  | op :: r1 :: r2 :: r3 :: r4 :: t :: c1 :: c2 :: c3 :: c4 :: c5 :: c6 :: c7 :: c8 :: payload =>
    let rank := natOfBytes [r1, r2, r3, r4]
    let count := natOfBytes [c1, c2, c3, c4, c5, c6, c7, c8]
    match elemSize t with
    | none => .error .malformedFrame
    | some s =>
      if payload.length = count * s then
        .ok ⟨op, rank, t, count, payload⟩
      else
        .error .malformedFrame
  | _ => .error .malformedFrame

/-- Elementwise integer addition of two buffers (the sum reduction
operator applied pointwise). -/
def zipAdd (a b : List Int) : List Int :=
  List.zipWith (· + ·) a b

/-- Modelled from the spec: Reduce over the group-level view of the
buffers — every rank except `dst` sends its buffer to `dst`; `dst`
folds each arrival into its own buffer in ascending rank order using
the sum operator; only `dst`'s buffer is replaced. -/
def reduceBufs (bufs : List (List Int)) (dst : Nat) : List (List Int) :=
  bufs.set dst (((List.range bufs.length).filter (fun r => r ≠ dst)).foldl
    (fun acc r => zipAdd acc (bufs.getD r [])) (bufs.getD dst []))

/-- Modelled from the spec: Broadcast over the group-level view of the
buffers — every rank other than `src` receives a copy of `src`'s
buffer; `src`'s own buffer is left as it is. -/
def broadcastBufs (bufs : List (List Int)) (src : Nat) : List (List Int) :=
  (List.range bufs.length).map (fun r => if r = src then bufs.getD r [] else bufs.getD src [])

/-- Modelled from the spec: AllReduce as the two-phase protocol —
phase 1 reduces into rank 0, phase 2 broadcasts rank 0's result to
all. -/
def allReduceBufs (bufs : List (List Int)) : List (List Int) :=
  broadcastBufs (reduceBufs bufs 0) 0

/-- Modelled from the spec: a transport-level receive from peer `r` —
yields `r`'s buffer, or fails with `ConnectionLost` if the connection
to `r` is closed. -/
def recvFrom (alive : Nat → Bool) (bufs : List (List Int)) (r : Nat) : Except THDError (List Int) :=
  if alive r then .ok (bufs.getD r []) else .error .connectionLost

/-- Modelled from the spec: a transport-level send to peer `r` — fails
with `ConnectionLost` if the connection to `r` is closed. -/
def sendTo (alive : Nat → Bool) (r : Nat) : Except THDError Unit :=
  if alive r then .ok () else .error .connectionLost

/-- Modelled from the spec: sending to a list of peers in order; the
first closed connection aborts the whole sequence with
`ConnectionLost`. -/
def sendAll (alive : Nat → Bool) : List Nat → Except THDError Unit
  | [] => .ok ()
  | p :: ps =>
    match sendTo alive p with
    | .error e => .error e
    | .ok _ => sendAll alive ps

/-- Modelled from the spec: the destination side of Reduce — receive
from each peer in the given (ascending) order, folding each arrival
into the accumulator; the first closed connection aborts the whole
fold with `ConnectionLost`, delivering no partial result. -/
def foldRecv (alive : Nat → Bool) (bufs : List (List Int)) (acc : List Int) :
    List Nat → Except THDError (List Int)
  | [] => .ok acc
  | p :: ps =>
    match recvFrom alive bufs p with
    | .error e => .error e
    | .ok b => foldRecv alive bufs (zipAdd acc b) ps

/-- Modelled from the spec: what Reduce does at the destination rank —
fold the arrivals from every other rank, in ascending rank order, into
its own buffer. -/
def reduceAtDst (alive : Nat → Bool) (bufs : List (List Int)) (dst : Nat) :
    Except THDError (List Int) :=
  foldRecv alive bufs (bufs.getD dst []) ((List.range bufs.length).filter (fun r => r ≠ dst))

/-- Modelled from the spec: the local view of Reduce at rank `own` —
the destination folds all arrivals; every other rank sends its buffer
to the destination and keeps its own buffer. -/
def reduceLocal (alive : Nat → Bool) (bufs : List (List Int)) (own dst : Nat) :
    Except THDError (List Int) :=
  if own = dst then
    reduceAtDst alive bufs dst
  else
    match sendTo alive dst with
    | .error e => .error e
    | .ok _ => .ok (bufs.getD own [])

/-- Modelled from the spec: the local view of Broadcast at rank `own`
in a group of `n` ranks — the source sends its buffer to every other
rank in ascending rank order; every other rank receives from the
source. -/
def broadcastLocal (alive : Nat → Bool) (bufs : List (List Int)) (own src n : Nat) :
    Except THDError (List Int) :=
  if own = src then
    match sendAll alive ((List.range n).filter (fun r => r ≠ src)) with
    | .error e => .error e
    | .ok _ => .ok (bufs.getD src [])
  else
    recvFrom alive bufs src

/-- Modelled from the spec: the local view of AllReduce at rank `own`
in a group of `n` ranks — phase 1 reduces into rank 0, phase 2
broadcasts rank 0's result; a failure in either phase fails the whole
operation with no partial result. -/
def allReduceLocal (alive : Nat → Bool) (bufs : List (List Int)) (own n : Nat) :
    Except THDError (List Int) :=
  match reduceLocal alive bufs own 0 with
  | .error e => .error e
  | .ok _ => broadcastLocal alive (reduceBufs bufs 0) own 0 n

/-- Modelled from the spec: the engine object behind the global
`dataChannel` pointer.  It carries the registry state (this process's
rank and the group size, fixed at join), the liveness of the
connection to each peer, the next incoming frame on each connection,
and the group-level view of every rank's buffer (rank-indexed; the
local descriptor's numeric contents are mirrored at index `rank`). -/
structure DataChannel where
  rank : Int
  numProcesses : Int
  alive : Nat → Bool
  inbox : Nat → Frame
  bufs : List (List Int)

/-- Modelled from the spec: the registry's rank query once joined. -/
def DataChannel.getRank (dc : DataChannel) : Int :=
  dc.rank

/-- Modelled from the spec: the registry's size query once joined. -/
def DataChannel.getNumProcesses (dc : DataChannel) : Int :=
  dc.numProcesses

/-- The opcode tags of the five operations. -/
def opAllReduce : Nat := 0
def opReduce : Nat := 1
def opBroadcast : Nat := 2
def opSend : Nat := 3
def opReceive : Nat := 4

/-- Modelled from the spec: the engine's Send — fails with
`InvalidRank` if `dstRank` equals the own rank or is out of
`[0, size)`; otherwise encodes a frame with opcode Send and writes it
to the connection for `dstRank` (the written frame is the returned
protocol action), failing with `ConnectionLost` if that connection is
closed. -/
def DataChannel.send (dc : DataChannel) (d : TensorDescriptor) (dstRank : Int) :
    Except THDError Frame :=
  if dstRank = dc.rank ∨ dstRank < 0 ∨ dc.numProcesses ≤ dstRank then
    .error .invalidRank
  else if dc.alive dstRank.toNat then
    .ok ⟨opSend, dc.rank.toNat, d.elementType, d.elementCount, d.payload⟩
  else
    .error .connectionLost

/-- Modelled from the spec: copying an incoming frame's payload into a
receiving descriptor — fails with `SizeMismatch` if the incoming
element count differs from the descriptor's capacity. -/
def copyIntoDescriptor (d : TensorDescriptor) (incoming : Frame) :
    Except THDError TensorDescriptor :=
  if incoming.elementCount = d.elementCount then
    .ok ⟨d.elementType, d.elementCount, incoming.payload⟩
  else
    .error .sizeMismatch

/-- Modelled from the spec: the engine's Receive — fails with
`InvalidRank` if `srcRank` is out of `[0, size)`, with
`ConnectionLost` if the connection from `srcRank` is closed, and
otherwise copies the incoming frame's payload into the descriptor,
failing with `SizeMismatch` on an element-count mismatch. -/
def DataChannel.receive (dc : DataChannel) (d : TensorDescriptor) (srcRank : Int) :
    Except THDError TensorDescriptor :=
  if srcRank < 0 ∨ dc.numProcesses ≤ srcRank then
    .error .invalidRank
  else if dc.alive srcRank.toNat then
    copyIntoDescriptor d (dc.inbox srcRank.toNat)
  else
    .error .connectionLost

/-- Modelled from the spec: the engine's Reduce as observed by the
local rank — fails with `InvalidRank` if `dstRank` is out of
`[0, size)`, otherwise runs the local view of the reduce protocol. -/
def DataChannel.reduce (dc : DataChannel) (_d : TensorDescriptor) (dstRank : Int) :
    Except THDError (List Int) :=
  if dstRank < 0 ∨ dc.numProcesses ≤ dstRank then
    .error .invalidRank
  else
    reduceLocal dc.alive dc.bufs dc.rank.toNat dstRank.toNat

/-- Modelled from the spec: the engine's Broadcast as observed by the
local rank — fails with `InvalidRank` if `srcRank` is out of
`[0, size)`, otherwise runs the local view of the broadcast
protocol. -/
def DataChannel.broadcast (dc : DataChannel) (_d : TensorDescriptor) (srcRank : Int) :
    Except THDError (List Int) :=
  if srcRank < 0 ∨ dc.numProcesses ≤ srcRank then
    .error .invalidRank
  else
    broadcastLocal dc.alive dc.bufs dc.rank.toNat srcRank.toNat dc.numProcesses.toNat

/-- Modelled from the spec: the engine's AllReduce as observed by the
local rank — the two-phase protocol, phase 1 into rank 0 and phase 2
from rank 0. -/
def DataChannel.allReduce (dc : DataChannel) (_d : TensorDescriptor) :
    Except THDError (List Int) :=
  allReduceLocal dc.alive dc.bufs dc.rank.toNat dc.numProcesses.toNat

/-- Lifting the engine's typed result into a facade call outcome. -/
def ofExcept {α : Type} : Except THDError α → CallOutcome α
  | .ok a => .ok a
  | .error e => .typedError e

/-- From Collectives.cpp: `THDGetRank` returns
`dataChannel->getRank()`, dereferencing the global pointer with no
check. -/
def THDGetRank (dataChannel : Option DataChannel) : CallOutcome Int :=
  match dataChannel with
  | none => .nullDeref
  | some dc => .ok dc.getRank

/-- From Collectives.cpp: `THDGetNumProcesses` returns
`dataChannel->getNumProcesses()`, dereferencing the global pointer
with no check. -/
def THDGetNumProcesses (dataChannel : Option DataChannel) : CallOutcome Int :=
  match dataChannel with
  | none => .nullDeref
  | some dc => .ok dc.getNumProcesses

/-- From Collectives.cpp: `THDAllReduce` runs
`dataChannel->allReduce(*desc)`, dereferencing both the global pointer
and the descriptor pointer with no check. -/
def THDAllReduce (dataChannel : Option DataChannel) (desc : Option TensorDescriptor) :
    CallOutcome (List Int) :=
  match dataChannel, desc with
  | none, _ => .nullDeref
  | some _, none => .nullDeref
  | some dc, some d => ofExcept (dc.allReduce d)

/-- From Collectives.cpp: `THDReduce` runs
`dataChannel->reduce(*desc, dst_rank)`, dereferencing both pointers
with no check of its own. -/
def THDReduce (dataChannel : Option DataChannel) (desc : Option TensorDescriptor)
    (dst_rank : Int) : CallOutcome (List Int) :=
  match dataChannel, desc with
  | none, _ => .nullDeref
  | some _, none => .nullDeref
  | some dc, some d => ofExcept (dc.reduce d dst_rank)

/-- From Collectives.cpp: `THDBroadcast` runs
`dataChannel->broadcast(*desc, src_rank)`, dereferencing both pointers
with no check of its own. -/
def THDBroadcast (dataChannel : Option DataChannel) (desc : Option TensorDescriptor)
    (src_rank : Int) : CallOutcome (List Int) :=
  match dataChannel, desc with
  | none, _ => .nullDeref
  | some _, none => .nullDeref
  | some dc, some d => ofExcept (dc.broadcast d src_rank)

/-- From Collectives.cpp: `THDSend` runs
`dataChannel->send(*desc, dst_rank)`, dereferencing both pointers with
no check of its own. -/
def THDSend (dataChannel : Option DataChannel) (desc : Option TensorDescriptor)
    (dst_rank : Int) : CallOutcome Frame :=
  match dataChannel, desc with
  | none, _ => .nullDeref
  | some _, none => .nullDeref
  | some dc, some d => ofExcept (dc.send d dst_rank)

/-- From Collectives.cpp: `THDReceive` runs
`dataChannel->receive(*desc, src_rank)`, dereferencing both pointers
with no check of its own. -/
def THDReceive (dataChannel : Option DataChannel) (desc : Option TensorDescriptor)
    (src_rank : Int) : CallOutcome TensorDescriptor :=
  match dataChannel, desc with
  | none, _ => .nullDeref
  | some _, none => .nullDeref
  | some dc, some d => ofExcept (dc.receive d src_rank)

/-- Modelled from the spec: joining the group installs the rank and
group size handed out by the rendezvous provider, the fresh connection
set, and the initial buffers. -/
def joinGroup (r n : Int) (alive : Nat → Bool) (inbox : Nat → Frame)
    (bufs : List (List Int)) : DataChannel :=
  ⟨r, n, alive, inbox, bufs⟩

/-- An operation request issued during a session (section 3's
Operation Request, plus the two queries). -/
inductive THDOp where
  | send (desc : TensorDescriptor) (dst : Int)
  | receive (desc : TensorDescriptor) (src : Int)
  | broadcast (desc : TensorDescriptor) (src : Int)
  | reduce (desc : TensorDescriptor) (dst : Int)
  | allReduce (desc : TensorDescriptor)
  | queryRank
  | querySize

/-- Modelled from the spec: the state evolution of a session — the
collective operations rewrite the group-level buffers; all mutation of
the registry fields (rank, size) happens only during join/leave, so no
operation touches them. -/
def stepOp (dc : DataChannel) (op : THDOp) : DataChannel :=
  match op with
  | .send _ _ => dc
  | .receive _ _ => dc
  | .broadcast _ src => { dc with bufs := broadcastBufs dc.bufs src.toNat }
  | .reduce _ dst => { dc with bufs := reduceBufs dc.bufs dst.toNat }
  | .allReduce _ => { dc with bufs := allReduceBufs dc.bufs }
  | .queryRank => dc
  | .querySize => dc

/-- Running a sequence of session operations from a state. -/
def runOps (dc : DataChannel) (ops : List THDOp) : DataChannel :=
  ops.foldl stepOp dc

/-! ### Helper lemmas -/

theorem getD_set_ne (l : List (List Int)) (i j : Nat) (a : List Int) (h : i ≠ j) :
    (l.set i a).getD j [] = l.getD j [] := by
  rw [List.getD_eq_getElem?_getD, List.getElem?_set_ne h, ← List.getD_eq_getElem?_getD]

theorem getD_set_self (l : List (List Int)) (i : Nat) (a : List Int) (h : i < l.length) :
    (l.set i a).getD i [] = a := by
  rw [List.getD_eq_getElem?_getD, List.getElem?_set_self]
  · rfl
  · exact h

theorem length_broadcastBufs (bufs : List (List Int)) (src : Nat) :
    (broadcastBufs bufs src).length = bufs.length := by
  simp [broadcastBufs]

theorem getD_broadcastBufs (bufs : List (List Int)) (src r : Nat) (hr : r < bufs.length) :
    (broadcastBufs bufs src).getD r [] = bufs.getD src [] := by
  have hlen : r < (broadcastBufs bufs src).length := by
    rw [length_broadcastBufs]; exact hr
  rw [List.getD_eq_getElem ((broadcastBufs bufs src)) [] hlen]
  simp only [broadcastBufs, List.getElem_map, List.getElem_range]
  split
  · next h => rw [h]
  · rfl

theorem zipAdd_singleton (a b : Int) : zipAdd [a] [b] = [a + b] := rfl

theorem map_getD_range (l : List Int) :
    (List.range l.length).map (fun i => l.getD i 0) = l := by
  induction l with
  | nil => rfl
  | cons a t ih =>
    have h1 : (List.range t.length).map ((fun i => (a :: t).getD i 0) ∘ Nat.succ)
        = (List.range t.length).map (fun i => t.getD i 0) :=
      List.map_congr_left (fun i _ => by simp [Function.comp, List.getD_cons_succ])
    rw [List.length_cons, List.range_succ_eq_map, List.map_cons, List.map_map,
      List.getD_cons_zero, h1, ih]

theorem filter_range_succ_ne_zero (m : Nat) :
    (List.range (m + 1)).filter (fun r => r ≠ 0) = (List.range m).map Nat.succ := by
  rw [List.range_succ_eq_map]
  rw [List.filter_cons_of_neg (by simp)]
  rw [List.filter_map]
  rw [List.filter_eq_self.mpr (fun a _ => by simp [Function.comp])]

theorem foldl_zipAdd_singleton (vals : List Int) (l : List Nat) (x : Int)
    (hl : ∀ i ∈ l, i < vals.length) :
    l.foldl (fun acc r => zipAdd acc ((vals.map (fun v => [v])).getD r [])) [x]
      = [x + (l.map (fun i => vals.getD i 0)).sum] := by
  induction l generalizing x with
  | nil => simp
  | cons i t ih =>
    have hi : i < vals.length := hl i (List.mem_cons_self i t)
    have hmap : (vals.map (fun v => [v])).getD i [] = [vals.getD i 0] := by
      have hi2 : i < (vals.map (fun v => [v])).length := by
        rw [List.length_map]; exact hi
      rw [List.getD_eq_getElem _ [] hi2, List.getElem_map, ← List.getD_eq_getElem vals 0 hi]
    rw [List.foldl_cons, hmap, zipAdd_singleton]
    rw [ih (x + vals.getD i 0) (fun j hj => hl j (List.mem_cons_of_mem i hj))]
    rw [List.map_cons, List.sum_cons]
    congr 1
    ring

theorem reduceBufs_zero_singletons (v : Int) (vs : List Int) :
    reduceBufs ((v :: vs).map (fun b => [b])) 0
      = ((v :: vs).map (fun b => [b])).set 0 [(v :: vs).sum] := by
  unfold reduceBufs
  congr 1
  rw [List.length_map, List.length_cons, filter_range_succ_ne_zero]
  rw [List.foldl_map]
  have hgd : ((v :: vs).map (fun b => [b])).getD 0 [] = [v] := rfl
  rw [hgd]
  have := foldl_zipAdd_singleton (v :: vs) ((List.range vs.length).map Nat.succ) v
    (by intro i hi
        rcases List.mem_map.mp hi with ⟨j, hj, rfl⟩
        have := List.mem_range.mp hj
        simp only [List.length_cons, Nat.succ_eq_add_one]
        omega)
  rw [List.foldl_map] at this
  rw [this]
  congr 1
  rw [List.map_map]
  have : (List.range vs.length).map ((fun i => (v :: vs).getD i 0) ∘ Nat.succ)
      = (List.range vs.length).map (fun i => vs.getD i 0) := by
    apply List.map_congr_left
    intro i _
    simp [Function.comp, List.getD_cons_succ]
  rw [this, map_getD_range, List.sum_cons]

theorem natOfBytes_four (n : Nat) :
    natOfBytes [n % 256, n / 256 % 256, n / 256 / 256 % 256, n / 256 / 256 / 256 % 256]
      = n % 2 ^ 32 := by
  simp [natOfBytes]
  omega

theorem natOfBytes_eight (n : Nat) :
    natOfBytes [n % 256, n / 256 % 256, n / 256 / 256 % 256, n / 256 / 256 / 256 % 256,
      n / 256 / 256 / 256 / 256 % 256, n / 256 / 256 / 256 / 256 / 256 % 256,
      n / 256 / 256 / 256 / 256 / 256 / 256 % 256,
      n / 256 / 256 / 256 / 256 / 256 / 256 / 256 % 256] = n % 2 ^ 64 := by
  simp [natOfBytes]
  omega

theorem stepOp_rank (dc : DataChannel) (op : THDOp) : (stepOp dc op).rank = dc.rank := by
  cases op <;> rfl

theorem stepOp_numProcesses (dc : DataChannel) (op : THDOp) :
    (stepOp dc op).numProcesses = dc.numProcesses := by
  cases op <;> rfl

theorem runOps_rank (ops : List THDOp) : ∀ dc : DataChannel, (runOps dc ops).rank = dc.rank := by
  induction ops with
  | nil => intro dc; rfl
  | cons o t ih =>
    intro dc
    show (runOps (stepOp dc o) t).rank = dc.rank
    rw [ih (stepOp dc o), stepOp_rank]

theorem runOps_numProcesses (ops : List THDOp) :
    ∀ dc : DataChannel, (runOps dc ops).numProcesses = dc.numProcesses := by
  induction ops with
  | nil => intro dc; rfl
  | cons o t ih =>
    intro dc
    show (runOps (stepOp dc o) t).numProcesses = dc.numProcesses
    rw [ih (stepOp dc o), stepOp_numProcesses]

theorem foldRecv_error (alive : Nat → Bool) (bufs : List (List Int)) (l : List Nat)
    (p : Nat) (hp : p ∈ l) (hdead : alive p = false) :
    ∀ acc, foldRecv alive bufs acc l = .error .connectionLost := by
  induction l with
  | nil => cases hp
  | cons q t ih =>
    intro acc
    by_cases hq : alive q = true
    · have hpt : p ∈ t := by
        rcases List.mem_cons.mp hp with h | h
        · subst h; rw [hdead] at hq; cases hq
        · exact h
      simp only [foldRecv, recvFrom, if_pos hq]
      exact ih hpt _
    · simp only [foldRecv, recvFrom, if_neg hq]

theorem sendAll_error (alive : Nat → Bool) (l : List Nat) (p : Nat) (hp : p ∈ l)
    (hdead : alive p = false) : sendAll alive l = .error .connectionLost := by
  induction l with
  | nil => cases hp
  | cons q t ih =>
    by_cases hq : alive q = true
    · have hpt : p ∈ t := by
        rcases List.mem_cons.mp hp with h | h
        · subst h; rw [hdead] at hq; cases hq
        · exact h
      simp only [sendAll, sendTo, if_pos hq]
      exact ih hpt
    · simp only [sendAll, sendTo, if_neg hq]

theorem reduceAtDst_error (alive : Nat → Bool) (bufs : List (List Int)) (dst p : Nat)
    (hp : p < bufs.length) (hne : p ≠ dst) (hdead : alive p = false) :
    reduceAtDst alive bufs dst = .error .connectionLost := by
  unfold reduceAtDst
  exact foldRecv_error alive bufs _ p
    (List.mem_filter.mpr ⟨List.mem_range.mpr hp, by simp [hne]⟩) hdead _

/-- A sample engine state used by concrete witnesses: rank 0 in a group
of two, all connections open, a three-element frame waiting on every
connection, and singleton buffers. -/
def sampleChannel : DataChannel :=
  ⟨0, 2, fun _ => true, fun _ => ⟨3, 1, 0, 3, [1, 2, 3]⟩, [[1], [2]]⟩

/-- A sample four-element receiving descriptor used by concrete
witnesses. -/
def sampleDesc : TensorDescriptor :=
  ⟨0, 4, [0, 0, 0, 0]⟩

theorem getD_allReduceBufs_singletons (vals : List Int) (hne : vals ≠ []) (r : Nat)
    (hr : r < vals.length) :
    (allReduceBufs (vals.map (fun v => [v]))).getD r [] = [vals.sum] := by
  obtain ⟨v, vs, rfl⟩ := List.exists_cons_of_ne_nil hne
  unfold allReduceBufs
  rw [reduceBufs_zero_singletons]
  have hlen0 : 0 < ((v :: vs).map (fun b => [b])).length := by
    simp
  have hr2 : r < (((v :: vs).map (fun b => [b])).set 0 [(v :: vs).sum]).length := by
    rw [List.length_set, List.length_map]
    exact hr
  rw [getD_broadcastBufs _ 0 r hr2]
  rw [getD_set_self _ 0 _ hlen0]

/-! ### The claims -/

/-- C3: for `n` ranks each holding a single value `v_i` and reduction
operator sum, after AllReduce every rank's buffer equals the sum of all
`v_i`; in particular for three ranks holding `1, 2, 3`, every rank ends
holding `6`. -/
theorem claim_C3 :
    (∀ (vals : List Int), vals ≠ [] → ∀ r : Nat, r < vals.length →
      (allReduceBufs (vals.map (fun v => [v]))).getD r [] = [vals.sum]) ∧
    allReduceBufs [[1], [2], [3]] = [[6], [6], [6]] := by
  constructor
  · intro vals hne r hr
    exact getD_allReduceBufs_singletons vals hne r hr
  · decide

/-- C3 witness: the general statement applied to the concrete group
`1, 2, 3` at rank 0 yields the buffer `[6]`. -/
theorem claim_C3_witness :
    ([1, 2, 3] : List Int) ≠ [] ∧ (0 : Nat) < ([1, 2, 3] : List Int).length ∧
    (allReduceBufs (([1, 2, 3] : List Int).map (fun v => [v]))).getD 0 [] = [(6 : Int)] :=
  ⟨by decide, by decide,
    (claim_C3.1 [1, 2, 3] (by decide) 0 (by decide)).trans (by decide)⟩

/-- C4: Reduce mutates only the destination rank's buffer; the buffer
of every other rank is unchanged. -/
theorem claim_C4 (bufs : List (List Int)) (dst r : Nat) (hr : r < bufs.length)
    (hne : r ≠ dst) : (reduceBufs bufs dst).getD r [] = bufs.getD r [] := by
  unfold reduceBufs
  exact getD_set_ne bufs dst r _ (fun h => hne h.symm)

/-- C4 witness: reducing `[[1], [2], [3]]` into rank 0 leaves rank 1's
buffer equal to `[2]`. -/
theorem claim_C4_witness :
    (1 : Nat) < ([[1], [2], [3]] : List (List Int)).length ∧ (1 : Nat) ≠ 0 ∧
    (reduceBufs [[1], [2], [3]] 0).getD 1 [] = [(2 : Int)] :=
  ⟨by decide, by decide,
    (claim_C4 [[1], [2], [3]] 0 1 (by decide) (by decide)).trans (by decide)⟩

/-- C5: after Broadcast from `src`, every rank holds a copy of `src`'s
buffer (so every rank other than `src` holds a byte-identical copy and
`src`'s own buffer is unchanged); in particular for four ranks with
rank 2 holding `[9, 9]`, all four ranks end holding `[9, 9]`. -/
theorem claim_C5 :
    (∀ (bufs : List (List Int)) (src r : Nat), src < bufs.length → r < bufs.length →
      (broadcastBufs bufs src).getD r [] = bufs.getD src []) ∧
    broadcastBufs [[0], [1], [9, 9], [3]] 2 = [[9, 9], [9, 9], [9, 9], [9, 9]] := by
  constructor
  · intro bufs src r _ hr
    exact getD_broadcastBufs bufs src r hr
  · decide

/-- C5 witness: the general statement applied to the four-rank group
with rank 2 holding `[9, 9]` gives rank 0 the buffer `[9, 9]`. -/
theorem claim_C5_witness :
    (2 : Nat) < ([[0], [1], [9, 9], [3]] : List (List Int)).length ∧
    (0 : Nat) < ([[0], [1], [9, 9], [3]] : List (List Int)).length ∧
    (broadcastBufs [[0], [1], [9, 9], [3]] 2).getD 0 [] = [(9 : Int), 9] :=
  ⟨by decide, by decide,
    (claim_C5.1 [[0], [1], [9, 9], [3]] 2 0 (by decide) (by decide)).trans (by decide)⟩

/-- C6: a Receive whose incoming frame's element count differs from
the receiving descriptor's capacity fails with `SizeMismatch`, both at
the engine and as observed through the facade entry point. -/
theorem claim_C6 (dc : DataChannel) (d : TensorDescriptor) (src : Int)
    (h1 : ¬(src < 0 ∨ dc.numProcesses ≤ src)) (h2 : dc.alive src.toNat = true)
    (h3 : ¬(dc.inbox src.toNat).elementCount = d.elementCount) :
    dc.receive d src = .error .sizeMismatch ∧
    THDReceive (some dc) (some d) src = CallOutcome.typedError THDError.sizeMismatch := by
  have hrecv : dc.receive d src = .error .sizeMismatch := by
    unfold DataChannel.receive
    rw [if_neg h1, if_pos h2]
    unfold copyIntoDescriptor
    rw [if_neg h3]
  refine ⟨hrecv, ?_⟩
  show ofExcept (dc.receive d src) = _
  rw [hrecv]
  rfl

/-- C6 witness: receiving a three-element frame into a four-element
descriptor fails with `SizeMismatch`. -/
theorem claim_C6_witness :
    ¬((1 : Int) < 0 ∨ sampleChannel.numProcesses ≤ 1) ∧
    sampleChannel.alive (1 : Int).toNat = true ∧
    ¬(sampleChannel.inbox (1 : Int).toNat).elementCount = sampleDesc.elementCount ∧
    THDReceive (some sampleChannel) (some sampleDesc) 1
      = CallOutcome.typedError THDError.sizeMismatch :=
  ⟨by decide, by decide, by decide,
    (claim_C6 sampleChannel sampleDesc 1 (by decide) (by decide) (by decide)).2⟩

/-- C7: codec round-trip — encoding a frame whose fields fit the wire
header (and whose payload length matches its declared element count
times the element size) and then decoding the resulting bytes yields
the original element count, element type, and the byte-identical
payload. -/
theorem claim_C7 (f : Frame) (s : Nat) (h1 : f.opcode < 256) (h2 : f.senderRank < 2 ^ 32)
    (h3 : f.elementType < 256) (h4 : elemSize f.elementType = some s)
    (h5 : f.elementCount < 2 ^ 64) (h6 : f.payload.length = f.elementCount * s) :
    decode (encode f) = .ok f := by
  obtain ⟨op, rnk, t, cnt, pl⟩ := f
  simp only at h1 h2 h3 h4 h5 h6
  simp only [encode, bytesOfNat, List.cons_append, List.nil_append]
  simp only [decode, natOfBytes_four, natOfBytes_eight]
  rw [Nat.mod_eq_of_lt h1, Nat.mod_eq_of_lt h2, Nat.mod_eq_of_lt h3, Nat.mod_eq_of_lt h5, h4]
  simp [h6]

/-- C7 witness: a concrete frame with a three-byte int8 payload
round-trips through the codec unchanged. -/
theorem claim_C7_witness :
    (3 : Nat) < 256 ∧ (1 : Nat) < 2 ^ 32 ∧ (0 : Nat) < 256 ∧
    elemSize 0 = some 1 ∧ (3 : Nat) < 2 ^ 64 ∧
    ([9, 8, 7] : List Nat).length = 3 * 1 ∧
    decode (encode ⟨3, 1, 0, 3, [9, 8, 7]⟩) = .ok ⟨3, 1, 0, 3, [9, 8, 7]⟩ :=
  ⟨by decide, by norm_num, by decide, by decide, by norm_num, by decide,
    claim_C7 ⟨3, 1, 0, 3, [9, 8, 7]⟩ 1 (by decide) (by norm_num) (by decide) (by decide)
      (by norm_num) (by decide)⟩

/-- C1 counterexample: a Send issued before the group has been joined
(null `dataChannel`) reaches the null-pointer dereference instead of
failing with the typed `NotInitialized` error, falsifying the claim
that every public operation validates its arguments before
delegating. -/
theorem claim_C1_counterexample :
    THDSend none (some ⟨1, 1, [7]⟩) 0 = CallOutcome.nullDeref ∧
    THDSend none (some ⟨1, 1, [7]⟩) 0 ≠ CallOutcome.typedError THDError.notInitialized := by
  decide

/-- C1 (amended): the public operations perform no validation of their
own — a call made before the group has been joined dereferences the
null `dataChannel` pointer rather than failing with `NotInitialized`;
a rank argument outside `[0, groupSize)` (and, for Send, a `dstRank`
equal to the caller's own rank) makes the operation fail with
`InvalidRank` and perform no protocol action, but that check is done
by the delegated engine, not the facade; a descriptor with a
non-positive element count is not rejected at all. -/
theorem claim_C1 :
    (∀ d, THDAllReduce none (some d) = CallOutcome.nullDeref) ∧
    (∀ d r, THDReduce none (some d) r = CallOutcome.nullDeref) ∧
    (∀ d r, THDBroadcast none (some d) r = CallOutcome.nullDeref) ∧
    (∀ d r, THDSend none (some d) r = CallOutcome.nullDeref) ∧
    (∀ d r, THDReceive none (some d) r = CallOutcome.nullDeref) ∧
    (∀ (dc : DataChannel) (d : TensorDescriptor) (r : Int),
      (r = dc.rank ∨ r < 0 ∨ dc.numProcesses ≤ r) →
      THDSend (some dc) (some d) r = CallOutcome.typedError THDError.invalidRank) ∧
    (∀ (dc : DataChannel) (d : TensorDescriptor) (r : Int),
      (r < 0 ∨ dc.numProcesses ≤ r) →
      THDReduce (some dc) (some d) r = CallOutcome.typedError THDError.invalidRank) ∧
    (∀ (dc : DataChannel) (d : TensorDescriptor) (r : Int),
      (r < 0 ∨ dc.numProcesses ≤ r) →
      THDBroadcast (some dc) (some d) r = CallOutcome.typedError THDError.invalidRank) ∧
    (∀ (dc : DataChannel) (d : TensorDescriptor) (r : Int),
      (r < 0 ∨ dc.numProcesses ≤ r) →
      THDReceive (some dc) (some d) r = CallOutcome.typedError THDError.invalidRank) ∧
    (∀ (dc : DataChannel) (d : TensorDescriptor) (r : Int),
      d.elementCount = 0 → ¬(r = dc.rank ∨ r < 0 ∨ dc.numProcesses ≤ r) →
      dc.alive r.toNat = true →
      THDSend (some dc) (some d) r
        = CallOutcome.ok ⟨opSend, dc.rank.toNat, d.elementType, d.elementCount, d.payload⟩) := by
  refine ⟨fun _ => rfl, fun _ _ => rfl, fun _ _ => rfl, fun _ _ => rfl, fun _ _ => rfl,
    ?_, ?_, ?_, ?_, ?_⟩
  · intro dc d r h
    show ofExcept (dc.send d r) = _
    unfold DataChannel.send
    rw [if_pos h]
    rfl
  · intro dc d r h
    show ofExcept (dc.reduce d r) = _
    unfold DataChannel.reduce
    rw [if_pos h]
    rfl
  · intro dc d r h
    show ofExcept (dc.broadcast d r) = _
    unfold DataChannel.broadcast
    rw [if_pos h]
    rfl
  · intro dc d r h
    show ofExcept (dc.receive d r) = _
    unfold DataChannel.receive
    rw [if_pos h]
    rfl
  · intro dc d r _ h2 h3
    show ofExcept (dc.send d r) = _
    unfold DataChannel.send
    rw [if_neg h2, if_pos h3]
    rfl

/-- C1 witness: before join, a concrete Send reaches the null
dereference; after join, a concrete Send to the out-of-range rank 3 in
a group of two fails with `InvalidRank` via the engine; a concrete
Send of an empty descriptor to a valid peer is not rejected. -/
theorem claim_C1_witness :
    THDSend none (some sampleDesc) 0 = CallOutcome.nullDeref ∧
    ((3 : Int) = sampleChannel.rank ∨ (3 : Int) < 0 ∨ sampleChannel.numProcesses ≤ 3) ∧
    THDSend (some sampleChannel) (some sampleDesc) 3
      = CallOutcome.typedError THDError.invalidRank ∧
    THDSend (some sampleChannel) (some ⟨0, 0, []⟩) 1
      = CallOutcome.ok ⟨opSend, sampleChannel.rank.toNat, 0, 0, []⟩ :=
  ⟨claim_C1.2.2.2.1 sampleDesc 0, by decide,
    claim_C1.2.2.2.2.2.1 sampleChannel sampleDesc 3 (by decide),
    claim_C1.2.2.2.2.2.2.2.2.2 sampleChannel ⟨0, 0, []⟩ 1 (by decide) (by decide) (by decide)⟩

/-- C2 counterexample: `rank()` and `groupSize()` called before the
group has been joined (null `dataChannel`) reach the null-pointer
dereference, not the typed `NotInitialized` failure the claim
states. -/
theorem claim_C2_counterexample :
    THDGetRank none = CallOutcome.nullDeref ∧
    THDGetRank none ≠ CallOutcome.typedError THDError.notInitialized ∧
    THDGetNumProcesses none = CallOutcome.nullDeref ∧
    THDGetNumProcesses none ≠ CallOutcome.typedError THDError.notInitialized := by
  decide

/-- C2 (amended): a call to `rank()` or `groupSize()` before the group
has been joined dereferences the null `dataChannel` pointer — so it
indeed returns no value, but by reaching the null dereference rather
than by failing with the typed `NotInitialized` error. -/
theorem claim_C2 :
    THDGetRank none = CallOutcome.nullDeref ∧
    THDGetNumProcesses none = CallOutcome.nullDeref ∧
    (∀ v : Int, THDGetRank none ≠ CallOutcome.ok v) ∧
    (∀ v : Int, THDGetNumProcesses none ≠ CallOutcome.ok v) ∧
    THDGetRank none ≠ CallOutcome.typedError THDError.notInitialized ∧
    THDGetNumProcesses none ≠ CallOutcome.typedError THDError.notInitialized := by
  refine ⟨rfl, rfl, ?_, ?_, by decide, by decide⟩ <;> intro v h <;> cases h

/-- C2 witness: the amended statement instantiated at the concrete
value 5 — a pre-join rank query does not return the value 5. -/
theorem claim_C2_witness :
    THDGetRank none ≠ CallOutcome.ok 5 ∧ THDGetNumProcesses none ≠ CallOutcome.ok 5 :=
  ⟨claim_C2.2.2.1 5, claim_C2.2.2.2.1 5⟩

/-- C8: immediately after join with rank `r` and group size `n`, the
rank query returns `r` and the size query returns `n`, and they still
do so after any sequence of session operations (send, receive,
broadcast, reduce, all-reduce, queries). -/
theorem claim_C8 (r n : Int) (alive : Nat → Bool) (inbox : Nat → Frame)
    (bufs : List (List Int)) (ops : List THDOp) (h1 : 0 ≤ r) (h2 : r < n) :
    (joinGroup r n alive inbox bufs).getRank = r ∧
    (joinGroup r n alive inbox bufs).getNumProcesses = n ∧
    (runOps (joinGroup r n alive inbox bufs) ops).getRank = r ∧
    (runOps (joinGroup r n alive inbox bufs) ops).getNumProcesses = n := by
  refine ⟨rfl, rfl, ?_, ?_⟩
  · show (runOps (joinGroup r n alive inbox bufs) ops).rank = r
    rw [runOps_rank]
    rfl
  · show (runOps (joinGroup r n alive inbox bufs) ops).numProcesses = n
    rw [runOps_numProcesses]
    rfl


/-- C8 witness: rank 1 in a group of three keeps rank 1 and size 3
across a concrete session running an all-reduce, a broadcast, a reduce
and both queries. -/
theorem claim_C8_witness :
    (0 : Int) ≤ 1 ∧ (1 : Int) < 3 ∧
    (runOps (joinGroup 1 3 (fun _ => true) (fun _ => ⟨3, 1, 0, 3, [1, 2, 3]⟩) [[1], [2], [3]])
      [THDOp.allReduce ⟨0, 1, [1]⟩, THDOp.broadcast ⟨0, 1, [1]⟩ 0, THDOp.queryRank,
        THDOp.reduce ⟨0, 1, [1]⟩ 2, THDOp.querySize]).getRank = 1 :=
  ⟨by decide, by decide,
    (claim_C8 1 3 (fun _ => true) (fun _ => ⟨3, 1, 0, 3, [1, 2, 3]⟩) [[1], [2], [3]]
      [THDOp.allReduce ⟨0, 1, [1]⟩, THDOp.broadcast ⟨0, 1, [1]⟩ 0, THDOp.queryRank,
        THDOp.reduce ⟨0, 1, [1]⟩ 2, THDOp.querySize] (by decide) (by decide)).2.2.1⟩

/-- C9: a lost connection to any peer the local rank communicates with
during Reduce, Broadcast, or AllReduce fails the local rank's whole
operation with `ConnectionLost` (the error result carries no partial
buffer): the Reduce destination fails if any of its senders is lost, a
Reduce sender fails if the destination is lost, the Broadcast source
fails if any receiver is lost, a Broadcast receiver fails if the
source is lost, and AllReduce fails at rank 0 if any other rank is
lost and at any other rank if rank 0 is lost. -/
theorem claim_C9 :
    (∀ (alive : Nat → Bool) (bufs : List (List Int)) (dst p : Nat),
      p < bufs.length → p ≠ dst → alive p = false →
      reduceAtDst alive bufs dst = .error .connectionLost) ∧
    (∀ (alive : Nat → Bool) (bufs : List (List Int)) (own dst : Nat),
      own ≠ dst → alive dst = false →
      reduceLocal alive bufs own dst = .error .connectionLost) ∧
    (∀ (alive : Nat → Bool) (bufs : List (List Int)) (src n p : Nat),
      p < n → p ≠ src → alive p = false →
      broadcastLocal alive bufs src src n = .error .connectionLost) ∧
    (∀ (alive : Nat → Bool) (bufs : List (List Int)) (own src n : Nat),
      own ≠ src → alive src = false →
      broadcastLocal alive bufs own src n = .error .connectionLost) ∧
    (∀ (alive : Nat → Bool) (bufs : List (List Int)) (n p : Nat),
      p < bufs.length → p ≠ 0 → alive p = false →
      allReduceLocal alive bufs 0 n = .error .connectionLost) ∧
    (∀ (alive : Nat → Bool) (bufs : List (List Int)) (own n : Nat),
      own ≠ 0 → alive 0 = false →
      allReduceLocal alive bufs own n = .error .connectionLost) := by
  have hsender : ∀ (alive : Nat → Bool) (bufs : List (List Int)) (own dst : Nat),
      own ≠ dst → alive dst = false →
      reduceLocal alive bufs own dst = .error .connectionLost := by
    intro alive bufs own dst hne hdead
    unfold reduceLocal
    rw [if_neg hne]
    unfold sendTo
    rw [if_neg (by rw [hdead]; intro h; cases h)]
  have hatdst : ∀ (alive : Nat → Bool) (bufs : List (List Int)) (dst p : Nat),
      p < bufs.length → p ≠ dst → alive p = false →
      reduceAtDst alive bufs dst = .error .connectionLost :=
    fun alive bufs dst p hp hne hdead => reduceAtDst_error alive bufs dst p hp hne hdead
  refine ⟨hatdst, hsender, ?_, ?_, ?_, ?_⟩
  · intro alive bufs src n p hp hne hdead
    unfold broadcastLocal
    rw [if_pos rfl]
    rw [sendAll_error alive _ p
      (List.mem_filter.mpr ⟨List.mem_range.mpr hp, by simp [hne]⟩) hdead]
  · intro alive bufs own src n hne hdead
    unfold broadcastLocal
    rw [if_neg hne]
    unfold recvFrom
    rw [if_neg (by rw [hdead]; intro h; cases h)]
  · intro alive bufs n p hp hne hdead
    unfold allReduceLocal
    unfold reduceLocal
    rw [if_pos rfl]
    rw [hatdst alive bufs 0 p hp hne hdead]
  · intro alive bufs own n hne hdead
    unfold allReduceLocal
    rw [hsender alive bufs own 0 hne hdead]

/-- C9 witness: with the connection to rank 1 closed, rank 0's Reduce
with itself as destination over the two-rank group `[[1], [2]]` fails
with `ConnectionLost`. -/
theorem claim_C9_witness :
    (1 : Nat) < ([[1], [2]] : List (List Int)).length ∧ (1 : Nat) ≠ 0 ∧
    (fun r => decide (r ≠ 1) : Nat → Bool) 1 = false ∧
    reduceAtDst (fun r => decide (r ≠ 1)) [[1], [2]] 0 = .error .connectionLost :=
  ⟨by decide, by decide, by decide,
    claim_C9.1 (fun r => decide (r ≠ 1)) [[1], [2]] 0 1 (by decide) (by decide) (by decide)⟩

/-- C10: every public entry point unconditionally dereferences the
global `dataChannel` pointer — and the five collectives also the
descriptor argument — with no null check, no initialization check, no
element-count check and no rank-range check of its own: with a null
pointer the dereference branch is reached (which is not a typed
failure), and otherwise the call is exactly the delegated engine
call. -/
theorem claim_C10 :
    THDGetRank none = CallOutcome.nullDeref ∧
    THDGetNumProcesses none = CallOutcome.nullDeref ∧
    (∀ dc : DataChannel, THDGetRank (some dc) = CallOutcome.ok dc.getRank) ∧
    (∀ dc : DataChannel, THDGetNumProcesses (some dc) = CallOutcome.ok dc.getNumProcesses) ∧
    (∀ d, THDAllReduce none d = CallOutcome.nullDeref) ∧
    (∀ dc, THDAllReduce (some dc) none = CallOutcome.nullDeref) ∧
    (∀ dc d, THDAllReduce (some dc) (some d) = ofExcept (dc.allReduce d)) ∧
    (∀ d r, THDReduce none d r = CallOutcome.nullDeref) ∧
    (∀ dc r, THDReduce (some dc) none r = CallOutcome.nullDeref) ∧
    (∀ dc d r, THDReduce (some dc) (some d) r = ofExcept (dc.reduce d r)) ∧
    (∀ d r, THDBroadcast none d r = CallOutcome.nullDeref) ∧
    (∀ dc r, THDBroadcast (some dc) none r = CallOutcome.nullDeref) ∧
    (∀ dc d r, THDBroadcast (some dc) (some d) r = ofExcept (dc.broadcast d r)) ∧
    (∀ d r, THDSend none d r = CallOutcome.nullDeref) ∧
    (∀ dc r, THDSend (some dc) none r = CallOutcome.nullDeref) ∧
    (∀ dc d r, THDSend (some dc) (some d) r = ofExcept (dc.send d r)) ∧
    (∀ d r, THDReceive none d r = CallOutcome.nullDeref) ∧
    (∀ dc r, THDReceive (some dc) none r = CallOutcome.nullDeref) ∧
    (∀ dc d r, THDReceive (some dc) (some d) r = ofExcept (dc.receive d r)) ∧
    (∀ e : THDError, (CallOutcome.nullDeref : CallOutcome Int) ≠ CallOutcome.typedError e) :=
  ⟨rfl, rfl, fun _ => rfl, fun _ => rfl,
    fun d => by cases d <;> rfl, fun _ => rfl, fun _ _ => rfl,
    fun d _ => by cases d <;> rfl, fun _ _ => rfl, fun _ _ _ => rfl,
    fun d _ => by cases d <;> rfl, fun _ _ => rfl, fun _ _ _ => rfl,
    fun d _ => by cases d <;> rfl, fun _ _ => rfl, fun _ _ _ => rfl,
    fun d _ => by cases d <;> rfl, fun _ _ => rfl, fun _ _ _ => rfl,
    fun e h => by cases h⟩

/-- C10 witness: the delegation equations instantiated at a concrete
channel — the rank query on a joined channel is exactly the engine's
rank, and a pre-join send with a concrete descriptor hits the null
dereference. -/
theorem claim_C10_witness :
    THDGetRank (some sampleChannel) = CallOutcome.ok sampleChannel.getRank ∧
    THDSend none (some sampleDesc) 0 = CallOutcome.nullDeref ∧
    (CallOutcome.nullDeref : CallOutcome Int) ≠ CallOutcome.typedError THDError.connectionLost :=
  ⟨claim_C10.2.2.1 sampleChannel,
    claim_C10.2.2.2.2.2.2.2.2.2.2.2.2.2.1 (some sampleDesc) 0,
    claim_C10.2.2.2.2.2.2.2.2.2.2.2.2.2.2.2.2.2.2.2 THDError.connectionLost⟩

end THD
